import Mathlib

/-!
Shallow embedding of the JWT authentication / authorization subsystem of the
`oil` service (files `app/core/security.py`, `app/core/exceptions.py`,
`app/models/auth.py`), together with theorems settling the frozen claims
about its specification.

Conventions of the embedding:
* Python `time.time()` (a float, seconds) is modelled as a rational number.
* JSON documents (the JWKS response body, JWK entries, the unverified token
  header) are modelled by the inductive `Json`; a JSON object is an
  association list with the keys unique, looked up by `List.lookup` exactly
  as a Python `dict` lookup.
* The module-level mutable cache (`_jwks_cache`, `_jwks_last_updated`) is
  explicit state (`JwksState`) threaded through the operations.
* Calls into the third-party `jose` library (`jwt.get_unverified_header`,
  `jwk.construct`, `jwt.decode`) and the network fetch are modelled as
  oracle parameters giving the outcome of the call, since that code is not
  part of this repository; the repository's own control flow around those
  calls is translated faithfully.
* Python exceptions become explicit error values; the `try/except` dispatch
  of `validate_token` is the function `handle_validate_exc`, matching the
  source's clause order (`except JWTError`, `except AuthException`,
  `except Exception`).
-/

/-- A JSON value, as produced by `response.json()`. -/
inductive Json where
  | null
  | jbool (b : Bool)
  | jnum (n : Int)
  | jstr (s : String)
  | jarr (xs : List Json)
  | jobj (fields : List (String × Json))

/-- A JSON object body: what `Dict[str, Any]` holds.  Python dict keys are
unique; lookup is `List.lookup`. -/
abbrev JsonObj := List (String × Json)

mutual

/-- Value equality of JSON values: Python `==` on parsed JSON data. -/
def Json.beq : Json → Json → Bool
  | .null, .null => true
  | .jbool a, .jbool b => a == b
  | .jnum a, .jnum b => a == b
  | .jstr a, .jstr b => a == b
  | .jarr xs, .jarr ys => Json.beqList xs ys
  | .jobj xs, .jobj ys => Json.beqObj xs ys
  | _, _ => false

/-- Value equality of JSON arrays. -/
def Json.beqList : List Json → List Json → Bool
  | [], [] => true
  | x :: xs, y :: ys => Json.beq x y && Json.beqList xs ys
  | _, _ => false

/-- Value equality of JSON objects (association lists in insertion order). -/
def Json.beqObj : List (String × Json) → List (String × Json) → Bool
  | [], [] => true
  | (k, v) :: xs, (l, w) :: ys => k == l && Json.beq v w && Json.beqObj xs ys
  | _, _ => false

end

/-- Python `==` on optional JSON values (`dict.get` results): `None == None`
is `True`. -/
def jsonOptBeq : Option Json → Option Json → Bool
  | none, none => true
  | some a, some b => Json.beq a b
  | _, _ => false

/-- The `http.HTTPStatus` values used by the subsystem
(`app/core/exceptions.py`, `app/core/security.py`). -/
inductive HStatus where
  | unauthorized
  | forbidden
  | serviceUnavailable
  | internalServerError
deriving DecidableEq, Repr

/-- The application's exception hierarchy (`app/core/exceptions.py`):
`AppException(message, http_status)` and its subclass
`AuthException(message, http_status)`.  The constructor records which class
was raised, because `validate_token`'s `except` clauses dispatch on the
class: an `AuthException` is re-raised, while a plain `AppException` (not
being an instance of `AuthException`) falls through to `except Exception`. -/
inductive AppExc where
  | app (message : String) (http_status : HStatus)
  | auth (message : String) (http_status : HStatus)
deriving DecidableEq, Repr

/-- The module-level JWKS cache state of `app/core/security.py`:
`_jwks_cache : Dict[str, Any]` and `_jwks_last_updated : float`. -/
structure JwksState where
  cache : JsonObj
  lastUpdated : ℚ

/-- Initial module state: `_jwks_cache = {}`, `_jwks_last_updated = 0`. -/
def initialJwksState : JwksState := ⟨[], 0⟩

/-- `_jwks_cache_ttl = 3600` seconds. -/
def jwksCacheTtl : ℚ := 3600

/-- Outcome of one call to `get_jwks`: the returned value or raised
exception, the module state after the call, and whether a network fetch
was attempted. -/
structure GetJwksOutcome where
  result : Except AppExc JsonObj
  state : JwksState
  fetched : Bool

/-- Number of network fetches attempted by a call. -/
def GetJwksOutcome.fetchCount (o : GetJwksOutcome) : Nat :=
  if o.fetched then 1 else 0

/-- `get_jwks` (`app/core/security.py`, lines 21-50).  The refresh guard is
`if not _jwks_cache or current_time - _jwks_last_updated > _jwks_cache_ttl`:
an empty cache dict is falsy, so an empty cache always triggers a fetch.
The `fetch` oracle is the whole fallible part of the `try` body
(`client.get`, `raise_for_status`, `response.json()`): on success it yields
the parsed document, and the two cache assignments run; on any exception the
cache variables are untouched and
`AppException("Failed to fetch JWKS from authentication server",
SERVICE_UNAVAILABLE)` is raised. -/
def get_jwks (s : JwksState) (now : ℚ) (fetch : Except Unit JsonObj) :
    GetJwksOutcome :=
  if s.cache.isEmpty ∨ now - s.lastUpdated > jwksCacheTtl then
    match fetch with
    | .ok doc =>
        { result := .ok doc, state := ⟨doc, now⟩, fetched := true }
    | .error _ =>
        { result := .error (.app "Failed to fetch JWKS from authentication server"
            .serviceUnavailable),
          state := s, fetched := true }
  else
    { result := .ok s.cache, state := s, fetched := false }

/-- `JWTTokenData` (`app/models/auth.py`): the decoded, verified contents of
a bearer token.  `realm_access : Dict[str, List[str]]` and
`resource_access : Optional[Dict[str, Dict[str, List[str]]]]` become
association lists with unique keys. -/
structure JWTTokenData where
  sub : String
  exp : Int
  iat : Int
  jti : String
  iss : String
  typ : String
  azp : String
  sid : String
  realm_access : List (String × List String)
  scope : String
  preferred_username : String
  email : String
  aud : Option (List String)
  resource_access : Option (List (String × List (String × List String)))

/-- The realm-level contribution to `JWTTokenData.roles`: the source guard
`if self.realm_access and "roles" in self.realm_access` is equivalent to the
lookup of `"roles"` succeeding (a dict containing a key is non-empty, hence
truthy). -/
def JWTTokenData.realmRoles (t : JWTTokenData) : List String :=
  match t.realm_access.lookup "roles" with
  | some rs => rs
  | none => []

/-- The resource-level contribution to `JWTTokenData.roles`: for each entry
of `resource_access` (skipped entirely when it is `None`; the additional
truthiness test on the dict changes nothing, since iterating an empty dict
contributes nothing), the `"roles"` list of that client's mapping, in
iteration order. -/
def JWTTokenData.resourceRoles (t : JWTTokenData) : List String :=
  match t.resource_access with
  | none => []
  | some m =>
      m.flatMap (fun p =>
        match p.2.lookup "roles" with
        | some rs => rs
        | none => [])

/-- `JWTTokenData.roles` (`app/models/auth.py`, lines 31-46): realm roles
first, then client-specific roles, via `list.extend`. -/
def JWTTokenData.roles (t : JWTTokenData) : List String :=
  t.realmRoles ++ t.resourceRoles

/-- `JWTTokenData.has_role`: `required_role in self.roles`. -/
def JWTTokenData.has_role (t : JWTTokenData) (required_role : String) : Bool :=
  t.roles.contains required_role

/-- `JWTTokenData.has_any_role`:
`any(role in self.roles for role in required_roles)`. -/
def JWTTokenData.has_any_role (t : JWTTokenData) (required_roles : List String) :
    Bool :=
  required_roles.any (fun role => t.roles.contains role)

/-- `JWTTokenData.has_all_roles`:
`all(role in self.roles for role in required_roles)`. -/
def JWTTokenData.has_all_roles (t : JWTTokenData) (required_roles : List String) :
    Bool :=
  required_roles.all (fun role => t.roles.contains role)

/-- The `role_checker` closure produced by `has_role(required_role)`
(`app/core/security.py`, lines 161-181), applied to already-validated token
data: deny with `AuthException("Access denied", FORBIDDEN)` unless
`token_data.has_role(required_role)`. -/
def has_role_checker (required_role : String) (token_data : JWTTokenData) :
    Except AppExc JWTTokenData :=
  if token_data.has_role required_role then .ok token_data
  else .error (.auth "Access denied" .forbidden)

/-- The `role_checker` closure produced by `has_any_role(required_roles)`
(`app/core/security.py`, lines 183-204). -/
def has_any_role_checker (required_roles : List String)
    (token_data : JWTTokenData) : Except AppExc JWTTokenData :=
  if token_data.has_any_role required_roles then .ok token_data
  else .error (.auth "Access denied" .forbidden)

/-- `get_key_from_jwks` (`app/core/security.py`, lines 53-75).  The call
`jwt.get_unverified_header(token)` is third-party; its outcome is the
`header` oracle: `none` when it raises `JWTError` (the `except JWTError:
return None` branch), `some h` when it returns the header object `h`.
`jwks.get("keys", [])` defaults to the empty list; a JWKS document's
`"keys"` entry is an array of key objects (non-object entries are outside
the shapes this service receives and are not modelled).  A key matches when
`key.get("kid") == header.get("kid")` under Python `==`, where two absent
`kid`s (`None == None`) also match. -/
def get_key_from_jwks (header : Option JsonObj) (jwks : JsonObj) :
    Option JsonObj :=
  match header with
  | none => none
  | some h =>
      let keys : List Json :=
        match jwks.lookup "keys" with
        | some (.jarr ks) => ks
        | _ => []
      (keys.filterMap (fun k =>
          match k with
          | .jobj fields => some fields
          | _ => none)).find?
        (fun k => jsonOptBeq (k.lookup "kid") (h.lookup "kid"))

/-- A Python exception escaping the `try` body of `validate_token`, as
dispatched by its `except` clauses. -/
inductive PyExc where
  | jwtError
  | authExc (message : String) (http_status : HStatus)
  | appExc (message : String) (http_status : HStatus)
  | otherExc
deriving DecidableEq, Repr

/-- Oracle for the third-party calls `jwt.decode(token, pem, ...)` followed
by the model construction `JWTTokenData(**payload)`:
* `payload td` — signature and structural verification succeeded and the
  payload parsed into the claims shape `td`;
* `jwtErr` — `jwt.decode` raised a `JWTError` (bad signature, malformed
  token, ...);
* `otherErr` — some other exception (e.g. a pydantic `ValidationError`
  from `JWTTokenData(**payload)`). -/
inductive DecodeOutcome where
  | payload (td : JWTTokenData)
  | jwtErr
  | otherErr

/-- The `try` body of `validate_token` (`app/core/security.py`, lines
94-121): fetch the JWKS, look up the key, construct the public key
(`constructOk = false` models `jwk.construct`/`to_pem` raising a
`JWKError`, which in the `jose` library is NOT a `JWTError`), decode, build
the claims model, and run the explicit expiry check
`if token_data.exp < time.time()`. -/
def validate_token_body (s : JwksState) (now : ℚ)
    (fetch : Except Unit JsonObj) (header : Option JsonObj)
    (constructOk : Bool) (decode : DecodeOutcome) :
    Except PyExc JWTTokenData × JwksState :=
  match (get_jwks s now fetch).result with
  | .error (.app m st) => (.error (.appExc m st), (get_jwks s now fetch).state)
  | .error (.auth m st) => (.error (.authExc m st), (get_jwks s now fetch).state)
  | .ok jwks =>
      match get_key_from_jwks header jwks with
      | none =>
          (.error (.authExc "Invalid token signature: Key not found"
            .unauthorized), (get_jwks s now fetch).state)
      | some _key =>
          if constructOk then
            match decode with
            | .jwtErr => (.error .jwtError, (get_jwks s now fetch).state)
            | .otherErr => (.error .otherExc, (get_jwks s now fetch).state)
            | .payload td =>
                if (td.exp : ℚ) < now then
                  (.error (.authExc "Token has expired" .unauthorized),
                    (get_jwks s now fetch).state)
                else
                  (.ok td, (get_jwks s now fetch).state)
          else
            (.error .otherExc, (get_jwks s now fetch).state)

/-- The `except` chain of `validate_token` (`app/core/security.py`, lines
123-129), in source order: `except JWTError` wraps as
`AuthException("Invalid authentication token")`; `except AuthException`
re-raises unchanged; `except Exception` wraps as
`AuthException("Error validating authentication token")`.  A plain
`AppException` (such as the SERVICE_UNAVAILABLE failure raised by
`get_jwks`) is not an instance of `AuthException`, so it reaches the final
clause and is re-wrapped as a generic UNAUTHORIZED auth error. -/
def handle_validate_exc : PyExc → AppExc
  | .jwtError => .auth "Invalid authentication token" .unauthorized
  | .authExc m st => .auth m st
  | .appExc _ _ => .auth "Error validating authentication token" .unauthorized
  | .otherExc => .auth "Error validating authentication token" .unauthorized

/-- `validate_token` (`app/core/security.py`, lines 78-129).  The guard
`if not token` fires exactly on the empty string and raises before the
`try` block; everything else goes through the body and the `except`
chain. -/
def validate_token (token : String) (s : JwksState) (now : ℚ)
    (fetch : Except Unit JsonObj) (header : Option JsonObj)
    (constructOk : Bool) (decode : DecodeOutcome) :
    Except AppExc JWTTokenData × JwksState :=
  if token = "" then
    (.error (.auth "Missing authentication token" .unauthorized), s)
  else
    match validate_token_body s now fetch header constructOk decode with
    | (.ok td, s1) => (.ok td, s1)
    | (.error e, s1) => (.error (handle_validate_exc e), s1)

/-- Helper for `pySplit`: walk the characters, accumulating the current
word (reversed), emitting it when a whitespace character or the end of the
string is reached; empty words (whitespace runs, leading/trailing
whitespace) are never emitted. -/
def pySplitAux : List Char → List Char → List String
  | [], acc => if acc.isEmpty then [] else [String.mk acc.reverse]
  | c :: cs, acc =>
      if c.isWhitespace then
        if acc.isEmpty then pySplitAux cs []
        else String.mk acc.reverse :: pySplitAux cs []
      else pySplitAux cs (c :: acc)

/-- Python `str.split()` with no argument: split on runs of whitespace,
discarding empty pieces (so leading/trailing whitespace is ignored). -/
def pySplit (s : String) : List String := pySplitAux s.data []

/-- Python `str.lower()`, character by character. -/
def pyLower (s : String) : String := String.mk (s.data.map Char.toLower)

/-- `get_token_data` (`app/core/security.py`, lines 132-158), parameterized
by the validator it hands the extracted token to (the source calls
`validate_token`; quantifying over `validate` makes "the validator is never
invoked on a parse failure" expressible).  `if not authorization` fires on
an absent header and on the empty string; then
`parts = authorization.split()` and the format check
`len(parts) != 2 or parts[0].lower() != "bearer"`. -/
def get_token_data (validate : String → Except AppExc JWTTokenData)
    (authorization : Option String) : Except AppExc JWTTokenData :=
  match authorization with
  | none => .error (.auth "Missing authorization header" .unauthorized)
  | some a =>
      if a = "" then
        .error (.auth "Missing authorization header" .unauthorized)
      else
        let parts := pySplit a
        if parts.length ≠ 2 ∨ pyLower (parts.headD "") ≠ "bearer" then
          .error (.auth "Invalid authorization header format" .unauthorized)
        else
          validate (parts.getD 1 "")

/-- A concrete JWKS document with one key whose key id is `"k1"`, for
instantiating theorems. -/
def sampleJwks : JsonObj :=
  [("keys", Json.jarr [Json.jobj [("kid", Json.jstr "k1")]])]

/-- A concrete unverified token header with key id `"k1"`, matching
`sampleJwks`. -/
def sampleHeader : JsonObj := [("kid", Json.jstr "k1")]

/-- A concrete claims value with the given expiry time, for instantiating
theorems. -/
def sampleClaims (e : Int) : JWTTokenData :=
  { sub := "user-1", exp := e, iat := 900, jti := "jti-1", iss := "issuer",
    typ := "Bearer", azp := "client", sid := "sid-1",
    realm_access := [("roles", ["ROLE_USER"])], scope := "openid",
    preferred_username := "alice", email := "alice", aud := none,
    resource_access := none }

/-- C6: for every validated claims value `t` and role string `r`,
`has_role`'s checker returns the claims unchanged iff `r` is a member of
the effective role set — the union of the realm-level role list and all
roles of every resource-level role mapping entry — and otherwise denies
with `AuthException("Access denied")` at FORBIDDEN severity (distinct from
the UNAUTHORIZED severity of authentication failures). -/
theorem claim_C6_require_role_grants_iff_effective_role
    (t : JWTTokenData) (r : String) :
    has_role_checker r t =
      if r ∈ t.realmRoles ∨ r ∈ t.resourceRoles then .ok t
      else .error (.auth "Access denied" .forbidden) := by
  have h : (t.has_role r = true) ↔ (r ∈ t.realmRoles ∨ r ∈ t.resourceRoles) := by
    simp [JWTTokenData.has_role, JWTTokenData.roles]
  by_cases hr : r ∈ t.realmRoles ∨ r ∈ t.resourceRoles
  · rw [if_pos hr]
    unfold has_role_checker
    rw [if_pos (h.mpr hr)]
  · rw [if_neg hr]
    unfold has_role_checker
    rw [if_neg (fun hh => hr (h.mp hh))]

/-- C7: for every validated claims value `t` and list of role strings,
`has_any_role`'s checker grants iff the effective role set has a non-empty
intersection with the given list, and otherwise denies with the same
forbidden-class "Access denied" error as `has_role`. -/
theorem claim_C7_require_any_role_grants_iff_intersection
    (t : JWTTokenData) (required_roles : List String) :
    has_any_role_checker required_roles t =
      if ∃ r ∈ required_roles, r ∈ t.realmRoles ∨ r ∈ t.resourceRoles then .ok t
      else .error (.auth "Access denied" .forbidden) := by
  have h : (t.has_any_role required_roles = true) ↔
      (∃ r ∈ required_roles, r ∈ t.realmRoles ∨ r ∈ t.resourceRoles) := by
    simp [JWTTokenData.has_any_role, JWTTokenData.roles]
  by_cases hr : ∃ r ∈ required_roles, r ∈ t.realmRoles ∨ r ∈ t.resourceRoles
  · rw [if_pos hr]
    unfold has_any_role_checker
    rw [if_pos (h.mpr hr)]
  · rw [if_neg hr]
    unfold has_any_role_checker
    rw [if_neg (fun hh => hr (h.mp hh))]

/-- C9: for every validated claims value, `has_any_role`'s checker called
with an empty list of required roles denies with the forbidden-class
"Access denied" error: `any` over an empty list is vacuously false. -/
theorem claim_C9_require_any_role_empty_list_denies (t : JWTTokenData) :
    has_any_role_checker [] t = .error (.auth "Access denied" .forbidden) := by
  rfl

/-- C5: whenever the network fetch inside `get_jwks` fails, the cache slot
and its fetch timestamp are left completely untouched (the new state equals
the old state in every case), and when no cache exists yet the failure is
surfaced to the caller as the SERVICE_UNAVAILABLE `AppException`. -/
theorem claim_C5_failed_fetch_leaves_cache_untouched (s : JwksState) (now : ℚ) :
    (get_jwks s now (.error ())).state = s ∧
    (s.cache = [] →
      (get_jwks s now (.error ())).result =
        .error (.app "Failed to fetch JWKS from authentication server"
          .serviceUnavailable)) := by
  constructor
  · unfold get_jwks
    split <;> rfl
  · intro h
    unfold get_jwks
    rw [if_pos (Or.inl (by simp [h]))]

theorem claim_C5_witness :
    (get_jwks initialJwksState 0 (.error ())).state = initialJwksState ∧
    (get_jwks initialJwksState 0 (.error ())).result =
      .error (.app "Failed to fetch JWKS from authentication server"
        .serviceUnavailable) :=
  ⟨(claim_C5_failed_fetch_leaves_cache_untouched initialJwksState 0).1,
   (claim_C5_failed_fetch_leaves_cache_untouched initialJwksState 0).2 rfl⟩

/-- C10: if the fetch succeeds but returns an empty key-set document, the
cache is populated with the empty (falsy) dict, so every subsequent call —
at any time, even strictly inside the one-hour TTL window — performs a
network fetch again: staleness is not purely time-driven in this case. -/
theorem claim_C10_empty_keyset_always_refetches (s : JwksState) (t1 : ℚ)
    (h : s.cache.isEmpty = true ∨ t1 - s.lastUpdated > jwksCacheTtl) :
    (get_jwks s t1 (.ok [])).result = .ok [] ∧
    (get_jwks s t1 (.ok [])).state.cache = [] ∧
    (∀ t2 fetch2, (get_jwks (get_jwks s t1 (.ok [])).state t2 fetch2).fetched
      = true) := by
  have e : get_jwks s t1 (.ok []) = ⟨.ok [], ⟨[], t1⟩, true⟩ := by
    unfold get_jwks
    rw [if_pos h]
  refine ⟨by rw [e], by rw [e], ?_⟩
  intro t2 f2
  rw [e]
  show (get_jwks ⟨[], t1⟩ t2 f2).fetched = true
  unfold get_jwks
  rw [if_pos (Or.inl (by simp))]
  cases f2 <;> rfl

theorem claim_C10_witness :
    (get_jwks initialJwksState 0 (.ok [])).result = .ok [] ∧
    (get_jwks initialJwksState 0 (.ok [])).state.cache = [] ∧
    (get_jwks (get_jwks initialJwksState 0 (.ok [])).state 1
      (.error ())).fetched = true := by
  have h := claim_C10_empty_keyset_always_refetches initialJwksState 0
    (Or.inl rfl)
  exact ⟨h.1, h.2.1, h.2.2 1 (.error ())⟩

/-- When the cache is non-empty and its age is within the TTL, `get_jwks`
returns it unchanged without fetching. -/
theorem get_jwks_fresh (s : JwksState) (now : ℚ) (f : Except Unit JsonObj)
    (hc : s.cache ≠ []) (ht : now - s.lastUpdated ≤ jwksCacheTtl) :
    get_jwks s now f = ⟨.ok s.cache, s, false⟩ := by
  have hneg : ¬(s.cache.isEmpty = true ∨ now - s.lastUpdated > jwksCacheTtl) := by
    rintro (hl | hr)
    · exact hc (by simpa using hl)
    · exact absurd ht (not_le.mpr hr)
  unfold get_jwks
  rw [if_neg hneg]

/-- When the refresh guard fires, `get_jwks` attempts a network fetch. -/
theorem get_jwks_refresh_fetches (s : JwksState) (now : ℚ)
    (f : Except Unit JsonObj)
    (h : s.cache.isEmpty = true ∨ now - s.lastUpdated > jwksCacheTtl) :
    (get_jwks s now f).fetched = true := by
  unfold get_jwks
  rw [if_pos h]
  cases f <;> rfl

/-- Whenever `get_jwks` returns a document, that document is exactly the
cache held in the post-state. -/
theorem get_jwks_cache_of_ok (s : JwksState) (now : ℚ)
    (f : Except Unit JsonObj) (j : JsonObj)
    (h : (get_jwks s now f).result = .ok j) :
    (get_jwks s now f).state.cache = j := by
  unfold get_jwks at h ⊢
  by_cases hc : s.cache.isEmpty = true ∨ now - s.lastUpdated > jwksCacheTtl
  · rw [if_pos hc] at h ⊢
    cases f with
    | ok doc => simpa using h
    | error e => simp at h
  · rw [if_neg hc] at h ⊢
    simpa using h

/-- C3 counterexample: a non-empty cache fetched at time T = 0, queried at
exactly T + 3600, is treated as FRESH — no fetch is attempted (even though
the fetch oracle is primed to fail, the cached document is returned) —
whereas the claim says the boundary instant T + 3600 counts as stale. -/
theorem claim_C3_counterexample :
    (get_jwks ⟨[("keys", Json.jarr [])], 0⟩ 3600 (.error ())).fetched = false ∧
    (get_jwks ⟨[("keys", Json.jarr [])], 0⟩ 3600 (.error ())).result =
      .ok [("keys", Json.jarr [])] := by
  have e := get_jwks_fresh ⟨[("keys", Json.jarr [])], 0⟩ 3600 (.error ())
    (by simp) (by norm_num [jwksCacheTtl])
  exact ⟨by rw [e], by rw [e]⟩

/-- C3 (amended): a non-empty key-set cache fetched at time T is fresh —
returned as is, with no network fetch and no state change — for every
validation time in the closed interval [T, T+3600], the boundary instant
T+3600 included, and is stale (triggering a refresh fetch) exactly when the
age exceeds 3600 seconds, i.e. strictly after T+3600.  (The source guard is
`current_time - _jwks_last_updated > _jwks_cache_ttl`, a strict
inequality.) -/
theorem claim_C3_amended_staleness_boundary (s : JwksState) (now : ℚ)
    (fetch : Except Unit JsonObj) (hc : s.cache ≠ []) :
    ((get_jwks s now fetch).fetched = false ∧
      (get_jwks s now fetch).result = .ok s.cache ∧
      (get_jwks s now fetch).state = s) ↔
    now - s.lastUpdated ≤ jwksCacheTtl := by
  by_cases ht : now - s.lastUpdated > jwksCacheTtl
  · apply iff_of_false
    · intro hcontra
      have hf := get_jwks_refresh_fetches s now fetch (Or.inr ht)
      rw [hcontra.1] at hf
      exact Bool.noConfusion hf
    · exact fun hle => absurd hle (not_le.mpr ht)
  · apply iff_of_true
    · rw [get_jwks_fresh s now fetch hc (not_lt.mp ht)]
      exact ⟨rfl, rfl, rfl⟩
    · exact not_lt.mp ht

theorem claim_C3_amended_witness :
    (get_jwks ⟨[("k", Json.null)], 0⟩ 1800 (.error ())).fetched = false ∧
    (get_jwks ⟨[("k", Json.null)], 0⟩ 1800 (.error ())).result =
      .ok [("k", Json.null)] ∧
    (get_jwks ⟨[("k", Json.null)], 0⟩ 1800 (.error ())).state =
      ⟨[("k", Json.null)], 0⟩ :=
  (claim_C3_amended_staleness_boundary ⟨[("k", Json.null)], 0⟩ 1800
    (.error ()) (by simp)).mpr (by norm_num [jwksCacheTtl])

/-- C4 counterexample: starting from no cache, two calls to `get_jwks` at
the same instant (time 0, trivially within the TTL window) whose fetches
both SUCCEED — no intervening fetch failure — each trigger a network fetch
(two in total), because the successfully fetched document is the empty
key-set dict, which the refresh guard treats as an absent cache.  This
refutes "at most one network fetch in total". -/
theorem claim_C4_counterexample :
    (get_jwks initialJwksState 0 (.ok [])).fetchCount +
      (get_jwks (get_jwks initialJwksState 0 (.ok [])).state 0
        (.ok [])).fetchCount = 2 := by
  rfl

/-- C4 (amended): calling `get_jwks` twice, without an intervening fetch
failure, returns bit-identical key-set data from both calls and triggers at
most one network fetch in total, PROVIDED the document returned by the
first call is non-empty; the second call is made within the TTL window of
the cache's fetch timestamp.  (Without the non-emptiness proviso the claim
fails: an empty fetched document is treated as an absent cache and is
re-fetched on every call, as the counterexample shows.) -/
theorem claim_C4_amended_idempotence (s : JwksState) (t1 t2 : ℚ)
    (f1 f2 : Except Unit JsonObj) (j : JsonObj)
    (h1 : (get_jwks s t1 f1).result = .ok j)
    (hne : j ≠ [])
    (hwin : t2 - (get_jwks s t1 f1).state.lastUpdated ≤ jwksCacheTtl) :
    (get_jwks (get_jwks s t1 f1).state t2 f2).result = .ok j ∧
    (get_jwks (get_jwks s t1 f1).state t2 f2).fetched = false ∧
    (get_jwks s t1 f1).fetchCount +
      (get_jwks (get_jwks s t1 f1).state t2 f2).fetchCount ≤ 1 := by
  have hcache := get_jwks_cache_of_ok s t1 f1 j h1
  have e2 := get_jwks_fresh (get_jwks s t1 f1).state t2 f2
    (by rw [hcache]; exact hne) hwin
  rw [e2]
  refine ⟨?_, rfl, ?_⟩
  · show Except.ok (get_jwks s t1 f1).state.cache = Except.ok j
    rw [hcache]
  · show (get_jwks s t1 f1).fetchCount +
      (⟨.ok (get_jwks s t1 f1).state.cache, (get_jwks s t1 f1).state, false⟩ :
        GetJwksOutcome).fetchCount ≤ 1
    cases h : (get_jwks s t1 f1).fetched <;>
      simp [GetJwksOutcome.fetchCount, h]

theorem claim_C4_amended_witness :
    (get_jwks (get_jwks initialJwksState 0
      (.ok [("keys", Json.jarr [])])).state 3600 (.error ())).result =
      .ok [("keys", Json.jarr [])] ∧
    (get_jwks (get_jwks initialJwksState 0
      (.ok [("keys", Json.jarr [])])).state 3600 (.error ())).fetched = false ∧
    (get_jwks initialJwksState 0 (.ok [("keys", Json.jarr [])])).fetchCount +
      (get_jwks (get_jwks initialJwksState 0
        (.ok [("keys", Json.jarr [])])).state 3600 (.error ())).fetchCount
      ≤ 1 :=
  claim_C4_amended_idempotence initialJwksState 0 3600
    (.ok [("keys", Json.jarr [])]) (.error ()) [("keys", Json.jarr [])]
    rfl (by simp) (by norm_num [get_jwks, initialJwksState, jwksCacheTtl])

/-- C2 (amended): for every token that reaches signature verification and
decodes successfully (the `decode` oracle yields a payload), `validate_token`
fails with the "expired" kind — `AuthException("Token has expired")`,
UNAUTHORIZED — exactly when the expiry time is STRICTLY less than the
current time, and accepts the token when `exp = now`: the source check is
`if token_data.exp < time.time()`, a strict inequality, so the boundary
instant `exp = now` is not treated as expired. -/
theorem claim_C2_amended_expired_iff_strictly_past (token : String)
    (s : JwksState) (now : ℚ) (fetch : Except Unit JsonObj)
    (header : Option JsonObj) (td : JWTTokenData) (jwks key : JsonObj)
    (htok : token ≠ "")
    (hjwks : (get_jwks s now fetch).result = .ok jwks)
    (hkey : get_key_from_jwks header jwks = some key) :
    (validate_token token s now fetch header true (.payload td)).1 =
      if (td.exp : ℚ) < now then
        .error (.auth "Token has expired" .unauthorized)
      else .ok td := by
  by_cases hexp : (td.exp : ℚ) < now
  · simp [validate_token, validate_token_body, htok, hjwks, hkey, hexp,
      handle_validate_exc]
  · simp [validate_token, validate_token_body, htok, hjwks, hkey, hexp,
      handle_validate_exc]

/-- C2 counterexample: a token whose signature verifies and whose expiry
time EQUALS the current time (`exp = now = 1000`) is ACCEPTED by
`validate_token` — the claim says every token with `expiry <= now` fails
with the "expired" kind, but the source check `token_data.exp < time.time()`
is strict, so the boundary case succeeds. -/
theorem claim_C2_counterexample :
    (validate_token "tok" ⟨sampleJwks, 1000⟩ 1000 (.error ())
      (some sampleHeader) true (.payload (sampleClaims 1000))).1 =
      .ok (sampleClaims 1000) := by
  have e := get_jwks_fresh ⟨sampleJwks, 1000⟩ 1000 (.error ())
    (by simp [sampleJwks]) (by norm_num [jwksCacheTtl])
  have hjwks : (get_jwks ⟨sampleJwks, 1000⟩ 1000 (.error ())).result =
      .ok sampleJwks := by rw [e]
  have hkey : get_key_from_jwks (some sampleHeader) sampleJwks =
      some [("kid", Json.jstr "k1")] := rfl
  have htok : "tok" ≠ "" := by decide
  norm_num [validate_token, validate_token_body, htok, hjwks, hkey,
    sampleClaims]

theorem claim_C2_amended_witness :
    (validate_token "tok" ⟨sampleJwks, 1000⟩ 1000 (.error ())
      (some sampleHeader) true (.payload (sampleClaims 999))).1 =
      .error (.auth "Token has expired" .unauthorized) := by
  have e := get_jwks_fresh ⟨sampleJwks, 1000⟩ 1000 (.error ())
    (by simp [sampleJwks]) (by norm_num [jwksCacheTtl])
  rw [claim_C2_amended_expired_iff_strictly_past "tok" ⟨sampleJwks, 1000⟩
    1000 (.error ()) (some sampleHeader) (sampleClaims 999) sampleJwks
    [("kid", Json.jstr "k1")] (by decide) (by rw [e]) rfl]
  norm_num [sampleClaims]

/-- C1 (code bug): on the first-ever fetch with no prior cache and a failing
key-set endpoint, `get_jwks` itself fails with the SERVICE_UNAVAILABLE
`AppException` — that half of the claim holds (first conjunct) — but
`validate_token` does NOT surface the failure distinctly from a token-shaped
unauthorized-class failure: the `AppException` is not an `AuthException`, so
it falls through to the final `except Exception` clause and is re-wrapped as
`AuthException("Error validating authentication token")` at UNAUTHORIZED
(second conjunct), which is the exact same error value produced for a
token-shaped processing failure such as a key-construction error (third
conjunct) — indistinguishable to the caller in kind, status and message. -/
theorem claim_C1_service_unavailable_not_surfaced :
    (get_jwks initialJwksState 1000 (.error ())).result =
      .error (.app "Failed to fetch JWKS from authentication server"
        .serviceUnavailable) ∧
    (validate_token "abc.def.ghi" initialJwksState 1000 (.error ()) none true
      .jwtErr).1 =
      .error (.auth "Error validating authentication token" .unauthorized) ∧
    (validate_token "abc.def.ghi" ⟨sampleJwks, 1000⟩ 1000 (.error ())
      (some sampleHeader) false .jwtErr).1 =
      .error (.auth "Error validating authentication token" .unauthorized) := by
  refine ⟨rfl, rfl, ?_⟩
  have e := get_jwks_fresh ⟨sampleJwks, 1000⟩ 1000 (.error ())
    (by simp [sampleJwks]) (by norm_num [jwksCacheTtl])
  have hjwks : (get_jwks ⟨sampleJwks, 1000⟩ 1000 (.error ())).result =
      .ok sampleJwks := by rw [e]
  have hkey : get_key_from_jwks (some sampleHeader) sampleJwks =
      some [("kid", Json.jstr "k1")] := rfl
  simp [validate_token, validate_token_body, hjwks, hkey, handle_validate_exc]

/-- C8: for every present, non-empty Authorization header value that does
not consist of exactly two whitespace-separated parts with a
case-insensitively "bearer" first part, `get_token_data` fails with
"Invalid authorization header format" regardless of the validator it was
given — quantifying over `validate` shows the validator is never invoked —
and that message is distinct from the missing-header message and from the
token-validation failure messages. -/
theorem claim_C8_malformed_header_rejected_before_validation (a : String)
    (hne : a ≠ "")
    (hbad : ¬((pySplit a).length = 2 ∧ pyLower ((pySplit a).headD "")
      = "bearer")) :
    (∀ validate, get_token_data validate (some a) =
      .error (.auth "Invalid authorization header format" .unauthorized)) ∧
    ("Invalid authorization header format" ≠ "Missing authorization header") ∧
    ("Invalid authorization header format" ≠ "Missing authentication token") ∧
    ("Invalid authorization header format" ≠ "Invalid authentication token") := by
  refine ⟨?_, by decide, by decide, by decide⟩
  intro v
  have hcond : (pySplit a).length ≠ 2 ∨
      pyLower ((pySplit a).headD "") ≠ "bearer" := by
    by_contra hcon
    push_neg at hcon
    exact hbad ⟨hcon.1, hcon.2⟩
  dsimp only [get_token_data]
  rw [if_neg hne, if_pos hcond]

theorem claim_C8_witness :
    get_token_data (fun t => (validate_token t initialJwksState 0 (.error ())
      none true .jwtErr).1) (some "Token abc.def.ghi") =
      .error (.auth "Invalid authorization header format" .unauthorized) :=
  (claim_C8_malformed_header_rejected_before_validation "Token abc.def.ghi"
    (by decide) (by decide)).1
    (fun t => (validate_token t initialJwksState 0 (.error ()) none true
      .jwtErr).1)
